import Mathlib

/-!
Verification of the Kinect-Node capture pipeline against its specification.

Shallow embedding of the JavaScript sources:
* `src/services/buffer-pool.js` (BufferPool)
* `src/services/sensors/depth-sensor.js` (DepthSensor frame queue)
* `src/services/workers/depth-worker.js` (DepthWorker, ColorWorker)
* `src/services/sensors/base-sensor.js` (BaseSensor lifecycle,
  MultiSourceReader synchronizer, WebSocketService handshake)
* the body worker and base worker sources (BodyWorker, BaseWorker)

Conventions: machine numbers are Nat / Int / Rat; JavaScript exceptions are
Except / an Option String error channel; buffers are identified by Nat ids
(JS object identity); JS array push/pop at the array end is modelled by a
Lean list whose head is the top of the stack (all stack operations in the
source act on the same end, so the mirror is exact).  Floating-point
routines `Math.sqrt` / `Math.pow(x, 0.5)` are passed as an explicit
function parameter `(g : Rat → Rat)`: every theorem below quantifies over
that parameter, assuming only range facts that hold for the IEEE routine.
-/

namespace KinectNode

/-- The four stream kinds of `BufferPool.#BUFFER_CONFIGS` and of the
sensor/synchronizer configuration. -/
inductive Kind
  | depth
  | color
  | infrared
  | body
deriving DecidableEq, Repr

/-! ## BufferPool (`src/services/buffer-pool.js`) -/

namespace BufferPool

/-- One entry of the `#pools` map: the LIFO free list (`buffers`, head =
most recently pushed) and the outstanding set (`inUse`). -/
structure KindPool where
  buffers : List Nat
  inUse : Finset Nat
deriving DecidableEq, Inhabited

/-- The `#stats` record of the pool (the `lastResized` wall-clock field is
not modelled). -/
structure PoolStats where
  hits : Nat
  misses : Nat
  created : Nat
  released : Nat
  poolSize : Nat
  maxUsed : Nat
deriving DecidableEq, Inhabited

/-- Whole-pool state: the four per-kind pools, the configuration fields set
by `#validateAndSetConfig`, the statistics, and a counter supplying fresh
buffer identities for `pool.create()`. -/
structure PoolState where
  depthP : KindPool
  colorP : KindPool
  infraredP : KindPool
  bodyP : KindPool
  maxPoolSize : Nat
  initialSize : Nat
  expandSize : Nat
  clearOnRelease : Bool
  stats : PoolStats
  nextId : Nat
deriving DecidableEq, Inhabited

/-- Read the pool of a kind (`this.#pools.get(type)`). -/
def PoolState.pool (s : PoolState) : Kind → KindPool
  | .depth => s.depthP
  | .color => s.colorP
  | .infrared => s.infraredP
  | .body => s.bodyP

/-- Replace the pool of a kind. -/
def PoolState.setPool (s : PoolState) : Kind → KindPool → PoolState
  | .depth, p => { s with depthP := p }
  | .color, p => { s with colorP := p }
  | .infrared, p => { s with infraredP := p }
  | .body, p => { s with bodyP := p }

/-- Constructor configuration; `none` models an absent (undefined) field,
`some 0` a falsy zero — both fall back to the default via `v || d`. -/
structure Config where
  maxPoolSize : Option Nat := none
  initialSize : Option Nat := none
  expandSize : Option Nat := none
  clearOnRelease : Bool := true
deriving DecidableEq

/-- JavaScript `v || d` on an optional number. -/
def jsOrDefault (v : Option Nat) (d : Nat) : Nat :=
  match v with
  | some n => if n = 0 then d else n
  | none => d

/-- Fresh buffer ids `start, start+1, …, start+n-1`. -/
def freshIds (start n : Nat) : List Nat :=
  (List.range n).map (fun i => start + i)

/-- Pre-allocate one kind's pool in `#initializePools`: `initialSize`
buffers are pushed; `created` and `poolSize` are incremented per buffer.
The JS loop pushes ids in increasing order, so the most recently pushed
(head of our stack) is the largest id. -/
def initKindPool (start n : Nat) : KindPool :=
  { buffers := (freshIds start n).reverse, inUse := ∅ }

/-- `new BufferPool(config)`: validates the configuration
(`#validateAndSetConfig`) and pre-allocates `initialSize` buffers for each
of the four kinds (`#initializePools`).  Throws (models `throw new Error`)
when `initialSize > maxPoolSize`. -/
def mkBufferPool (cfg : Config) : Except String PoolState :=
  let maxPoolSize := max 1 (jsOrDefault cfg.maxPoolSize 20)
  let initialSize := max 1 (jsOrDefault cfg.initialSize 5)
  let expandSize := max 1 (jsOrDefault cfg.expandSize 2)
  if initialSize > maxPoolSize then
    .error "Initial size cannot be larger than max pool size"
  else
    .ok
      { depthP := initKindPool 0 initialSize
        colorP := initKindPool initialSize initialSize
        infraredP := initKindPool (2 * initialSize) initialSize
        bodyP := initKindPool (3 * initialSize) initialSize
        maxPoolSize := maxPoolSize
        initialSize := initialSize
        expandSize := expandSize
        clearOnRelease := cfg.clearOnRelease
        stats :=
          { hits := 0, misses := 0, created := 4 * initialSize,
            released := 0, poolSize := 4 * initialSize, maxUsed := 0 }
        nextId := 4 * initialSize }

/-- `acquire(type)`: pop the free list (hit), otherwise expand up to
`expandSize` new buffers subject to the global `maxPoolSize` cap (miss);
at the cap the caller gets `none` (the `poolExhausted` event). -/
def acquire (k : Kind) (s : PoolState) : Option Nat × PoolState :=
  let p := s.pool k
  match p.buffers with
  | b :: rest =>
    let p : KindPool := { buffers := rest, inUse := insert b p.inUse }
    let s := s.setPool k p
    (some b,
      { s with stats :=
          { s.stats with hits := s.stats.hits + 1,
                         maxUsed := max s.stats.maxUsed p.inUse.card } })
  | [] =>
    if s.stats.poolSize ≥ s.maxPoolSize then
      (none, s)
    else
      let b := s.nextId
      let poolSize1 := s.stats.poolSize + 1
      let toAdd := min (s.expandSize - 1) (s.maxPoolSize - poolSize1)
      let p : KindPool :=
        { buffers := (freshIds (b + 1) toAdd).reverse,
          inUse := insert b p.inUse }
      let s := s.setPool k p
      (some b,
        { s with
            nextId := b + 1 + toAdd
            stats :=
              { s.stats with
                  misses := s.stats.misses + 1,
                  created := s.stats.created + 1 + toAdd,
                  poolSize := poolSize1 + toAdd,
                  maxUsed := max s.stats.maxUsed p.inUse.card } })

/-- `release(type, buffer)`: requires the buffer to be in the outstanding
set; otherwise throws `Invalid or untracked buffer` (returned as
`some msg` in the error channel) leaving the state it was given.  On
success the buffer is (optionally zero-filled, contents are not modelled)
pushed on the free list and removed from `inUse`. -/
def release (k : Kind) (b : Nat) (s : PoolState) : PoolState × Option String :=
  let p := s.pool k
  if b ∈ p.inUse then
    let s := s.setPool k { buffers := b :: p.buffers, inUse := p.inUse.erase b }
    ({ s with stats := { s.stats with released := s.stats.released + 1 } }, none)
  else
    (s, some "Invalid or untracked buffer")

/-- One kind's loop of `#shrinkPools`:
`while (buffers.length + inUse.size > max && buffers.length > 0) pop()`.
Returns the shrunk free list and the number of buffers discarded. -/
def shrinkList (inUseCard maxSize : Nat) : List Nat → List Nat × Nat
  | [] => ([], 0)
  | b :: rest =>
    if rest.length + 1 + inUseCard > maxSize then
      let r := shrinkList inUseCard maxSize rest
      (r.1, r.2 + 1)
    else
      (b :: rest, 0)

/-- `#shrinkPools()`: shrink each kind's free list against — note — the
GLOBAL `#maxPoolSize`, decrementing `#stats.poolSize` per pop. -/
def shrinkPools (s : PoolState) : PoolState :=
  let step := fun (s : PoolState) (k : Kind) =>
    let p := s.pool k
    let r := shrinkList p.inUse.card s.maxPoolSize p.buffers
    let s := s.setPool k { p with buffers := r.1 }
    { s with stats := { s.stats with poolSize := s.stats.poolSize - r.2 } }
  step (step (step (step s .depth) .color) .infrared) .body

/-- `resize(newSize)`: rejects a non-positive size and a size below the
global in-use count, else installs the new `maxPoolSize` and shrinks. -/
def resize (newSize : Int) (s : PoolState) : PoolState × Option String :=
  if newSize < 1 then
    (s, some "New size must be a positive number")
  else
    let totalInUse :=
      s.depthP.inUse.card + s.colorP.inUse.card +
        s.infraredP.inUse.card + s.bodyP.inUse.card
    if totalInUse > newSize.toNat then
      (s, some "New size is smaller than current in-use buffers")
    else
      (shrinkPools { s with maxPoolSize := newSize.toNat }, none)

/-- Total number of buffers across all kinds (free + outstanding), the
quantity the spec bounds by `max_pool_size`. -/
def totalAll (s : PoolState) : Nat :=
  (s.depthP.buffers.length + s.depthP.inUse.card) +
    (s.colorP.buffers.length + s.colorP.inUse.card) +
    (s.infraredP.buffers.length + s.infraredP.inUse.card) +
    (s.bodyP.buffers.length + s.bodyP.inUse.card)

end BufferPool

/-! ## DepthSensor frame queue (`src/services/sensors/depth-sensor.js`) -/

namespace DepthSensor

/-- The sensor-side state touched by `DepthSensor._processFrame` when raw
depth frames arrive.  Frames are identified by their arrival index.
`queue` is `this.frameQueue` (front = oldest, as in the JS array whose
overflow path `shift()`s the front); `posted` records the frames handed to
the worker via `postMessage`; `released` records the frames whose buffers
were returned to the pool by the overflow path, oldest first. -/
structure SensorQState where
  queue : List Nat
  missedFrames : Nat
  posted : List Nat
  released : List Nat
deriving DecidableEq, Repr

/-- Initial state of a freshly started sensor. -/
def initQState : SensorQState :=
  { queue := [], missedFrames := 0, posted := [], released := [] }

/-- `DepthSensor._processFrame(depthFrame)` for a size-valid frame `f`
while the worker has produced no reply (so nothing is dequeued between
arrivals).  If the queue is full, the oldest queued frame is shifted off,
its buffer released and `missedFrames` incremented, and the handler
RETURNS — the incoming frame is neither buffered nor posted.  Otherwise a
buffer is acquired (the pool is assumed non-exhausted, as in the claim's
scenario), the frame is copied in, queued, and posted to the worker.  The
empty-queue overflow arm is unreachable for `maxQueueSize ≥ 1`; in JS it
would throw inside `releaseBuffer` before the counter update. -/
def processFrame (maxQueueSize : Nat) (s : SensorQState) (f : Nat) : SensorQState :=
  if s.queue.length ≥ maxQueueSize then
    match s.queue with
    | old :: rest =>
      { s with queue := rest,
               released := s.released ++ [old],
               missedFrames := s.missedFrames + 1 }
    | [] => s
  else
    { s with queue := s.queue ++ [f], posted := s.posted ++ [f] }

/-- Push frames `1, …, n` through `_processFrame`. -/
def runFrames (maxQueueSize n : Nat) : SensorQState :=
  (List.range' 1 n).foldl (processFrame maxQueueSize) initQState

end DepthSensor

/-! ## DepthWorker (`src/services/workers/depth-worker.js`) -/

namespace DepthWorker

/-- The `processing` configuration fields used by the per-pixel path.
A zero `confidenceThreshold` models the falsy (absent) JS value. -/
structure Processing where
  normalize : Bool
  gammaCorrection : Bool
  confidenceThreshold : Rat
deriving DecidableEq

/-- `_isValidDepth(depth, min, max)`. -/
def isValidDepth (p : Processing) (depth minD maxD : Rat) : Bool :=
  decide (depth ≥ minD) && decide (depth ≤ maxD) && decide (depth > 0) &&
    (decide (p.confidenceThreshold = 0) ||
      decide (depth ≥ p.confidenceThreshold * maxD))

/-- `_normalizeDepth(depth, min, max)`; `g` is `Math.pow(·, 0.5)`. -/
def normalizeDepth (g : Rat → Rat) (p : Processing) (depth minD maxD : Rat) : Rat :=
  let normalized := (depth - minD) / (maxD - minD)
  if p.gammaCorrection then g normalized else normalized

/-- Storing a JS number into a `Uint16Array` slot: ToUint16 truncates
toward zero and reduces mod 2^16. -/
def jsToUint16 (q : Rat) : Nat :=
  (((if 0 ≤ q then ⌊q⌋ else -⌊-q⌋) : Int) % 65536).toNat

/-- The per-pixel body of `_processFrameChunks`: the result written into
`processed[i]` (a `Uint16Array` slot). -/
def processPixel (g : Rat → Rat) (p : Processing) (minD maxD : Rat) (depth : Nat) : Nat :=
  if p.normalize then
    if isValidDepth p depth minD maxD then
      jsToUint16 (normalizeDepth g p depth minD maxD)
    else 0
  else
    if isValidDepth p depth minD maxD then depth else 0

/-- `_processFrameChunks(frame, processed, minDepth, maxDepth)`.  The
chunked loops write each index exactly once, independently of the others,
so the pass is a per-pixel map. -/
def processFrameChunks (g : Rat → Rat) (p : Processing) (minD maxD : Rat)
    (frame : List Nat) : List Nat :=
  frame.map (processPixel g p minD maxD)

end DepthWorker

/-! ## ColorWorker (`color-worker.js`, bundled in `depth-worker.js`) -/

namespace ColorWorker

/-- `processing.compression` (the `quality`/`format` knobs do not affect
behaviour, the compression step being a stub). -/
structure Compression where
  enabled : Bool
deriving DecidableEq

/-- `processing` configuration of the color worker. -/
structure ColorProcessing where
  compression : Compression
  forceOpacity : Bool
  format : String
deriving DecidableEq

/-- Result record of `ColorWorker.processFrame`. -/
structure ColorResult where
  processedFrame : List Nat
  width : Nat
  height : Nat
  format : String
  compressed : Bool
deriving DecidableEq

/-- `_compressFrame(buffer)` — the stub in the source: the TODO comment
says compression is unimplemented, the input buffer is returned as is. -/
def compressFrame (buffer : List Nat) : List Nat :=
  buffer

/-- `_enforceOpacity(buffer)`: every fourth byte (alpha channel, indices
congruent to 3 mod 4) is set to 255; the chunked loops cover exactly those
indices. -/
def enforceOpacity (buffer : List Nat) : List Nat :=
  buffer.mapIdx (fun i v => if i % 4 = 3 then 255 else v)

/-- `ColorWorker.processFrame(frame)`: validates the RGBA byte length
(`width·height·4`, throwing `Invalid frame size`), copies the buffer,
optionally compresses (stub) and forces opacity, and reports
`compressed = compression.enabled`. -/
def processFrame (width height : Nat) (p : ColorProcessing) (buffer : List Nat) :
    Except String ColorResult :=
  if buffer.length ≠ width * height * 4 then
    .error "Invalid frame size"
  else
    let processed := buffer
    let processed :=
      if p.compression.enabled then compressFrame processed else processed
    let processed :=
      if p.forceOpacity then enforceOpacity processed else processed
    .ok { processedFrame := processed, width := width, height := height,
          format := p.format, compressed := p.compression.enabled }

end ColorWorker

/-! ## WebSocketService handshake (bundled in `base-sensor.js`) -/

namespace WebSocketService

/-- Messages the server sends to one connection (payload fields that do
not influence the handshake are elided). -/
inductive ServerMsg
  | identifyReq
  | welcome
  | errorMsg (err : String)
deriving DecidableEq, Repr

/-- An inbound message as seen by `#handleMessage` after `#parseMessage`:
either it parsed to an object with a `type` string, or parsing threw
(`Invalid message format`). -/
inductive InMsg
  | parsed (t : String)
  | malformed
deriving DecidableEq, Repr

/-- Per-connection state: `identified` is `ws.clientInfo` being set,
`timeoutActive` the pending identification timer, `closeCode` the code of
`ws.close` if the server closed the socket, and `sent` the messages the
server sent on this socket, in order. -/
structure ConnState where
  identified : Bool
  timeoutActive : Bool
  closeCode : Option Nat
  sent : List ServerMsg
deriving DecidableEq, Repr

/-- State of a connection just after `#handleConnection`: unidentified,
timer armed, `{type: identify, clientId}` sent. -/
def initConn : ConnState :=
  { identified := false, timeoutActive := true, closeCode := none,
    sent := [.identifyReq] }

/-- `send(client, data)`: only delivered while the socket is open
(`readyState === OPEN`). -/
def send (s : ConnState) (m : ServerMsg) : ConnState :=
  if s.closeCode = none then { s with sent := s.sent ++ [m] } else s

/-- `#handleIdentification`: clears the identification timer, records
`clientInfo`, adds the client to the broadcast set, and replies
`{type: welcome, …}`. -/
def handleIdentification (s : ConnState) : ConnState :=
  send { s with timeoutActive := false, identified := true } .welcome

/-- `#handleMessage`: an `identify` message runs the identification; any
other parseable message from an identified client is forwarded to the
supervisor (no connection-state change); from an unidentified client it
throws `Client not identified`, which the catch block answers with an
error message — the connection is NOT closed.  A malformed message is
answered the same way. -/
def handleMessage (s : ConnState) (m : InMsg) : ConnState :=
  match m with
  | .malformed => send s (.errorMsg "Invalid message format")
  | .parsed t =>
    if t = "identify" then
      handleIdentification s
    else if s.identified then
      s
    else
      send s (.errorMsg "Client not identified")

/-- The identification timer firing after `identification_timeout`: closes
the connection with code 1002 (the timer only fires while armed). -/
def identificationTimeoutFire (s : ConnState) : ConnState :=
  if s.timeoutActive then { s with closeCode := some 1002 } else s

end WebSocketService

/-! ## MultiSourceReader synchronizer (bundled in `base-sensor.js`) -/

namespace MultiSourceReader

/-- Synchronizer configuration (`#initializeConfiguration`); `required` is
the insertion-ordered set `#requiredFrameTypes` of enabled kinds, which
the constructor requires to be non-empty. -/
structure SyncConfig where
  syncWindow : Int
  dropAfter : Int
  bufferSize : Nat
  required : List Kind
deriving DecidableEq

/-- Synchronizer events (`synchronizedFrame` carries the buffered slots of
the bundle — the frame payloads are abstracted to their timestamps). -/
inductive SyncEvent
  | synchronizedFrame (timestamp : Int) (frames : List (Kind × Int))
  | frameDropped (k : Kind) (ts delay : Int)
  | bufferOverflow (k : Kind) (size : Nat)
deriving DecidableEq, Repr

/-- Synchronizer runtime state: `slots` is the `#frameBuffer` map in
insertion order (kind ↦ buffered timestamp), the rest are the `#stats`
counters and `#lastSyncTime`. -/
structure SyncState where
  slots : List (Kind × Int)
  lastSyncTime : Int
  syncedFrames : Nat
  droppedFrames : Nat
  lastSyncDelay : Int
  maxSyncDelay : Int
  frameDelays : List (Kind × Int)
  bufferOverflows : Nat
  syncAttempts : Nat
deriving DecidableEq

/-- State after `#resetState`. -/
def initSync : SyncState :=
  { slots := [], lastSyncTime := 0, syncedFrames := 0, droppedFrames := 0,
    lastSyncDelay := 0, maxSyncDelay := 0, frameDelays := [],
    bufferOverflows := 0, syncAttempts := 0 }

/-- JS `Map.set`: overwrite in place when the key is present (keeping its
insertion position), else append. -/
def mapSet (l : List (Kind × Int)) (k : Kind) (t : Int) : List (Kind × Int) :=
  if (l.lookup k).isSome then
    l.map (fun p => if p.1 = k then (k, t) else p)
  else
    l ++ [(k, t)]

/-- `#bufferFrame(frameType, frameData, timestamp)`: refuse the slot with
a `bufferOverflow` event when the live slot count is at `bufferSize`, else
store the slot and the per-kind delay statistic. -/
def bufferFrame (cfg : SyncConfig) (k : Kind) (t : Int) (s : SyncState) :
    SyncState × List SyncEvent :=
  if s.slots.length ≥ cfg.bufferSize then
    ({ s with bufferOverflows := s.bufferOverflows + 1 },
      [.bufferOverflow k s.slots.length])
  else
    ({ s with slots := mapSet s.slots k t,
              frameDelays := mapSet s.frameDelays k (t - s.lastSyncTime) }, [])

/-- `#processFrameData(frame, timestamp)`: buffer each required kind the
driver emission carries. -/
def processFrameData (cfg : SyncConfig) (present : List Kind) (t : Int)
    (s : SyncState) : SyncState × List SyncEvent :=
  cfg.required.foldl
    (fun acc k =>
      if k ∈ present then
        let r := bufferFrame cfg k t acc.1
        (r.1, acc.2 ++ r.2)
      else acc)
    (s, [])

/-- `#isFrameBufferComplete()`. -/
def isComplete (cfg : SyncConfig) (s : SyncState) : Bool :=
  cfg.required.all (fun k => (s.slots.lookup k).isSome)

/-- Maximum of a non-empty list given its head (`Math.max(...l)`). -/
def listMax (x : Int) (l : List Int) : Int :=
  l.foldl max x

/-- Minimum of a non-empty list given its head (`Math.min(...l)`). -/
def listMin (x : Int) (l : List Int) : Int :=
  l.foldl min x

/-- `#updateSyncStats(timestamp)` followed by the buffer clear and the
`synchronizedFrame` emission of `#emitSynchronizedFrame(timestamp)` (the
bundle is built from the buffer before it is cleared). -/
def emitSynchronizedFrame (t : Int) (s : SyncState) : SyncState × List SyncEvent :=
  let lastDelay := t - s.lastSyncTime
  ({ s with slots := [],
            syncedFrames := s.syncedFrames + 1,
            lastSyncDelay := lastDelay,
            maxSyncDelay := max s.maxSyncDelay lastDelay,
            lastSyncTime := t },
    [.synchronizedFrame t s.slots])

/-- `#dropStaleFrames(timestamp)`: delete every slot older than
`dropAfter`, counting and reporting each. -/
def dropStaleFrames (cfg : SyncConfig) (t : Int) (s : SyncState) :
    SyncState × List SyncEvent :=
  let stale := s.slots.filter (fun q => t - q.2 > cfg.dropAfter)
  ({ s with slots := s.slots.filter (fun q => ¬(t - q.2 > cfg.dropAfter)),
            droppedFrames := s.droppedFrames + stale.length },
    stale.map (fun q => .frameDropped q.1 q.2 (t - q.2)))

/-- The body of `#checkSynchronization(timestamp)` after the attempt
counter update.  `maxDelay` / `minDelay` are the JS
`Math.max(...delays)` / `Math.min(...delays)` over
`delays = (p :: rest).map (fun q => t - q.2)`, written out at each use.
With an empty (yet complete, only possible for an empty `required` set,
which the constructor rejects) buffer, JS computes
`Math.max() - Math.min() = -∞ ≤ syncWindow` and emits. -/
def checkSyncCore (cfg : SyncConfig) (t : Int) (s : SyncState) :
    SyncState × List SyncEvent :=
  if isComplete cfg s then
    match s.slots with
    | [] => emitSynchronizedFrame t s
    | p :: rest =>
      if listMax (t - p.2) (rest.map (fun q => t - q.2)) -
          listMin (t - p.2) (rest.map (fun q => t - q.2)) ≤
            cfg.syncWindow then
        emitSynchronizedFrame t s
      else if listMax (t - p.2) (rest.map (fun q => t - q.2)) >
          cfg.dropAfter then
        dropStaleFrames cfg t s
      else
        (s, [])
  else
    (s, [])

/-- `#checkSynchronization(timestamp)`: `this.#stats.syncAttempts++`,
then the completeness/window checks. -/
def checkSynchronization (cfg : SyncConfig) (t : Int) (s : SyncState) :
    SyncState × List SyncEvent :=
  checkSyncCore cfg t { s with syncAttempts := s.syncAttempts + 1 }

/-- `#handleMultiSourceFrame` while running: buffer the emission's frames,
then attempt synchronization. -/
def handleMultiSourceFrame (cfg : SyncConfig) (present : List Kind) (t : Int)
    (s : SyncState) : SyncState × List SyncEvent :=
  let r := processFrameData cfg present t s
  let r2 := checkSynchronization cfg t r.1
  (r2.1, r.2 ++ r2.2)

end MultiSourceReader

/-! ## BaseSensor lifecycle (`src/services/sensors/base-sensor.js`) -/

namespace BaseSensor

/-- Lifecycle-relevant fields of a `BaseSensor`. -/
structure SensorLC where
  isRunning : Bool
  frameCount : Nat
  workerRestartAttempts : Nat
  maxWorkerRestarts : Nat
  workerAlive : Bool
deriving DecidableEq, Repr

/-- State after the constructor with `maxRestarts = m`. -/
def mkSensor (m : Nat) : SensorLC :=
  { isRunning := false, frameCount := 0, workerRestartAttempts := 0,
    maxWorkerRestarts := m, workerAlive := false }

/-- `start()`: returns early when already running; otherwise sets
`isRunning` and zeroes `frameCount`, then initializes the reader and the
worker.  `readerOk` models whether `_initializeReader` succeeds; on
failure the catch block clears `isRunning` and rethrows (second component
`false`).  Note that `workerRestartAttempts` is not touched anywhere in
`start`. -/
def start (readerOk : Bool) (s : SensorLC) : SensorLC × Bool :=
  if s.isRunning then
    (s, true)
  else if readerOk then
    ({ s with isRunning := true, frameCount := 0, workerAlive := true }, true)
  else
    ({ s with isRunning := false, frameCount := 0 }, false)

/-- `stop()`: no-op when not running, else clears `isRunning` (resource
cleanup is outside the lifecycle state). -/
def stop (s : SensorLC) : SensorLC :=
  if s.isRunning then { s with isRunning := false } else s

/-- `_handleWorkerError()`: at the restart bound, stop the sensor;
otherwise increment the counter and re-spawn the worker. -/
def handleWorkerError (s : SensorLC) : SensorLC :=
  if s.workerRestartAttempts ≥ s.maxWorkerRestarts then
    stop s
  else
    { s with workerRestartAttempts := s.workerRestartAttempts + 1,
             workerAlive := true }

end BaseSensor

/-! ## BodyWorker and BaseWorker reply (body worker source) -/

namespace BodyWorker

/-- A 3-D position `{x, y, z}`. -/
structure Pos where
  x : Rat
  y : Rat
  z : Rat
deriving DecidableEq, Repr

/-- A joint record: `position`, optional `previousPosition`,
`tracking_state` and `confidence`. -/
structure Joint where
  position : Pos
  previousPosition : Option Pos
  trackingState : Nat
  confidence : Rat
deriving DecidableEq, Repr

/-- `processing.smoothing` parameters (`prediction` is destructured but
unused by the source). -/
structure Smoothing where
  correction : Rat
  prediction : Rat
  jitterRadius : Rat
  maxDeviationRadius : Rat
deriving DecidableEq, Repr

/-- `processing.metrics` flags. -/
structure Metrics where
  trackVelocity : Bool
  calculateBoundingBox : Bool
  calculateCenterOfMass : Bool
  calculateConfidence : Bool
deriving DecidableEq, Repr

/-- `processing.movement` parameters. -/
structure MovementCfg where
  threshold : Rat
  minConfidence : Rat
deriving DecidableEq, Repr

/-- The `processing` configuration of the body worker
(`tracking.jointFilter` is a configuration-supplied function and is passed
separately as a predicate). -/
structure BodyProcessing where
  smoothing : Smoothing
  metrics : Metrics
  movement : MovementCfg
deriving DecidableEq, Repr

/-- A body record of the input frame: joints are an object keyed by
strings (the numeric accesses `joints[1]`, `joints[11]` read the keys
`"1"`, `"11"`). -/
structure Body where
  trackingId : Nat
  tracked : Bool
  joints : List (String × Joint)
  handStates : Option (Nat × Nat)
deriving DecidableEq, Repr

/-- `_calculateVelocity(current, previous)`: the validity check uses
truthiness (`!current?.x || …`), so a coordinate equal to 0 is treated as
missing and throws; `g` models `Math.sqrt`. -/
def calculateVelocity (g : Rat → Rat) (c p : Pos) : Except String Rat :=
  if c.x = 0 ∨ c.y = 0 ∨ c.z = 0 ∨ p.x = 0 ∨ p.y = 0 ∨ p.z = 0 then
    .error "Invalid position data"
  else
    .ok (g ((c.x - p.x) * (c.x - p.x) + (c.y - p.y) * (c.y - p.y) +
      (c.z - p.z) * (c.z - p.z)))

/-- `_calculateMovementDirection(current, previous)`: same truthiness
check, then the componentwise difference. -/
def calculateMovementDirection (c p : Pos) : Except String Pos :=
  if c.x = 0 ∨ c.y = 0 ∨ c.z = 0 ∨ p.x = 0 ∨ p.y = 0 ∨ p.z = 0 then
    .error "Invalid position data"
  else
    .ok { x := c.x - p.x, y := c.y - p.y, z := c.z - p.z }

/-- The blended position `pos·(1−correction) + prev·correction` that
`_smoothJoint` assigns before the deviation/jitter adjustment. -/
def blend (correction : Rat) (pos prev : Pos) : Pos :=
  { x := pos.x * (1 - correction) + prev.x * correction,
    y := pos.y * (1 - correction) + prev.y * correction,
    z := pos.z * (1 - correction) + prev.z * correction }

/-- `_smoothJoint(joint, smoothing)`: with a `previousPosition`, blend,
measure the step with `_calculateVelocity` (which can throw), clamp to
`maxDeviationRadius` or snap inside `jitterRadius`, and roll
`previousPosition` forward.  The model's `position` field is total, so the
`!joint?.position` guard always passes. -/
def smoothJoint (g : Rat → Rat) (sm : Smoothing) (j : Joint) : Except String Joint :=
  match j.previousPosition with
  | none => .ok { j with previousPosition := some j.position }
  | some prev =>
    match calculateVelocity g (blend sm.correction j.position prev) prev with
    | .error e => .error e
    | .ok distance =>
      let b := blend sm.correction j.position prev
      let pos :=
        if distance > sm.maxDeviationRadius then
          let scale := sm.maxDeviationRadius / distance
          { x := prev.x + (b.x - prev.x) * scale,
            y := prev.y + (b.y - prev.y) * scale,
            z := prev.z + (b.z - prev.z) * scale : Pos }
        else if distance < sm.jitterRadius then prev
        else b
      .ok { j with position := pos, previousPosition := some j.position }

/-- The record `_detectMovement` returns. -/
structure Movement where
  moving : Bool
  velocity : Rat
  relativePosition : Pos
  direction : Option Pos
deriving DecidableEq, Repr

/-- The fallback `spinePosition?.c || 0` of `_detectMovement`: coordinates
of an absent spine read as 0 (for a present spine, `x || 0` equals `x`
also when `x = 0`). -/
def spineOr0 (spine : Option Pos) : Pos :=
  spine.getD { x := 0, y := 0, z := 0 }

/-- The spine-relative position computed per coordinate by
`_detectMovement`. -/
def relativeTo (sp p : Pos) : Pos :=
  { x := p.x - sp.x, y := p.y - sp.y, z := p.z - sp.z }

/-- `_detectMovement(joint, threshold, spinePosition)`: spine-relative
positions, early return without a previous position, else velocity and
direction (both can throw on a zero coordinate of the relative
positions). -/
def detectMovement (g : Rat → Rat) (threshold : Rat) (spine : Option Pos)
    (j : Joint) : Except String Movement :=
  match j.previousPosition with
  | none =>
    .ok { moving := false, velocity := 0,
          relativePosition := relativeTo (spineOr0 spine) j.position,
          direction := none }
  | some prev =>
    match calculateVelocity g (relativeTo (spineOr0 spine) j.position)
        (relativeTo (spineOr0 spine) prev) with
    | .error e => .error e
    | .ok velocity =>
      match calculateMovementDirection
          (relativeTo (spineOr0 spine) j.position)
          (relativeTo (spineOr0 spine) prev) with
      | .error e => .error e
      | .ok direction =>
        .ok { moving := velocity > threshold, velocity := velocity,
              relativePosition := relativeTo (spineOr0 spine) j.position,
              direction := some direction }

/-- The `for (const [jointName, joint] of Object.entries(body.joints))`
loop of `_processBody`: filtered joints are smoothed and, when
`metrics.trackVelocity` is set, their movement is computed; the first
exception aborts the body. -/
def processJointsLoop (g : Rat → Rat) (filter : Joint → Bool)
    (cfg : BodyProcessing) (spine : Option Pos) :
    List (String × Joint) →
      Except String (List (String × Joint) × List (String × Movement))
  | [] => .ok ([], [])
  | (name, j) :: rest =>
    if filter j then
      match smoothJoint g cfg.smoothing j with
      | .error e => .error e
      | .ok sj =>
        match
          (if cfg.metrics.trackVelocity then
            (detectMovement g cfg.movement.threshold spine j).map some
          else
            .ok none) with
        | .error e => .error e
        | .ok mv =>
          match processJointsLoop g filter cfg spine rest with
          | .error e => .error e
          | .ok tail =>
            .ok ((name, sj) :: tail.1,
              match mv with
              | some m => (name, m) :: tail.2
              | none => tail.2)
    else
      processJointsLoop g filter cfg spine rest

/-- `_calculateCenterOfMass(joints)`: mean of positions over joints with
`trackingState > 0`; throws when none qualifies. -/
def calculateCenterOfMass (joints : List (String × Joint)) : Except String Pos :=
  let valid := joints.filter (fun nj => 0 < nj.2.trackingState)
  match valid with
  | [] => .error "No valid joints found for center of mass calculation"
  | _ :: _ =>
    let n : Rat := valid.length
    .ok { x := (valid.map (fun nj => nj.2.position.x)).sum / n,
          y := (valid.map (fun nj => nj.2.position.y)).sum / n,
          z := (valid.map (fun nj => nj.2.position.z)).sum / n }

/-- `_calculateBoundingBox(joints)`: componentwise min/max over joints
with `trackingState > 0`; throws when none qualifies. -/
def calculateBoundingBox (joints : List (String × Joint)) :
    Except String (Pos × Pos) :=
  let valid := joints.filter (fun nj => 0 < nj.2.trackingState)
  match valid with
  | [] => .error "No valid joints found for bounding box calculation"
  | v :: vs =>
    let step := fun (acc : Pos × Pos) (nj : String × Joint) =>
      ({ x := min acc.1.x nj.2.position.x, y := min acc.1.y nj.2.position.y,
         z := min acc.1.z nj.2.position.z : Pos },
       { x := max acc.2.x nj.2.position.x, y := max acc.2.y nj.2.position.y,
         z := max acc.2.z nj.2.position.z : Pos })
    .ok (vs.foldl step (v.2.position, v.2.position))

/-- The body-metrics record of `_calculateBodyMetrics`. -/
structure BodyMetrics where
  centerOfMass : Option Pos
  boundingBox : Option (Pos × Pos)
  height : Option Rat
  width : Option Rat
deriving DecidableEq, Repr

/-- `_calculateBodyMetrics(joints, metrics)`. -/
def calculateBodyMetrics (joints : List (String × Joint)) (m : Metrics) :
    Except String BodyMetrics :=
  match
    (if m.calculateCenterOfMass then
      (calculateCenterOfMass joints).map some
    else
      .ok none) with
  | .error e => .error e
  | .ok com =>
    if m.calculateBoundingBox then
      match calculateBoundingBox joints with
      | .error e => .error e
      | .ok bb =>
        .ok { centerOfMass := com, boundingBox := some bb,
              height := some (bb.2.y - bb.1.y),
              width := some (bb.2.x - bb.1.x) }
    else
      .ok { centerOfMass := com, boundingBox := none, height := none,
            width := none }

/-- `_calculateBodyConfidence(joints)`: mean confidence of joints with
`trackingState > 0` (0 when none). -/
def calculateBodyConfidence (joints : List (String × Joint)) : Rat :=
  let tracked := joints.filter (fun nj => 0 < nj.2.trackingState)
  if tracked.length = 0 then 0
  else (tracked.map (fun nj => nj.2.confidence)).sum / tracked.length

/-- `_interpretHandState(state)` over the state table. -/
def interpretHandState (state : Nat) : String :=
  (["unknown", "notTracked", "open", "closed", "lasso"].get? state).getD "unknown"

/-- `_processHandStates(handStates)`. -/
def processHandStates (hs : Option (Nat × Nat)) : String × String :=
  match hs with
  | none => ("unknown", "unknown")
  | some (l, r) => (interpretHandState l, interpretHandState r)

/-- The processed-body record `_processBody` returns. -/
structure ProcessedBody where
  trackingId : Nat
  tracked : Bool
  joints : List (String × Joint)
  handStates : String × String
  movements : Option (List (String × Movement))
  metrics : Option BodyMetrics
  confidence : Option Rat
deriving DecidableEq, Repr

/-- `_processBody(body, config)`: spine is `body.joints[1]` (key `"1"`),
then the joint loop, then the optional body metrics, confidence and hand
states. -/
def processBody (g : Rat → Rat) (filter : Joint → Bool)
    (cfg : BodyProcessing) (body : Body) : Except String ProcessedBody :=
  match processJointsLoop g filter cfg
      ((body.joints.lookup "1").map (fun j => j.position)) body.joints with
  | .error e => .error e
  | .ok r =>
    match
      (if cfg.metrics.calculateBoundingBox ||
          cfg.metrics.calculateCenterOfMass then
        (calculateBodyMetrics r.1 cfg.metrics).map some
      else
        .ok none) with
    | .error e => .error e
    | .ok metrics =>
      .ok { trackingId := body.trackingId, tracked := true, joints := r.1,
            handStates := processHandStates body.handStates,
            movements :=
              if cfg.metrics.trackVelocity then some r.2 else none,
            metrics := metrics,
            confidence :=
              if cfg.metrics.calculateConfidence then
                some (calculateBodyConfidence r.1)
              else none }

/-- The `for (const body of bodies)` loop of `processFrame`: tracked
bodies are processed in order, the first exception aborting the frame.
The `movement`/`gesture` side-channel messages posted between bodies never
throw and do not contribute to the returned artifact, so they are elided
here. -/
def processBodiesLoop (g : Rat → Rat) (filter : Joint → Bool)
    (cfg : BodyProcessing) : List Body → Except String (List ProcessedBody)
  | [] => .ok []
  | b :: rest =>
    if b.tracked then
      match processBody g filter cfg b with
      | .error e => .error e
      | .ok pb =>
        match processBodiesLoop g filter cfg rest with
        | .error e => .error e
        | .ok tail => .ok (pb :: tail)
    else
      processBodiesLoop g filter cfg rest

/-- `BodyWorker.processFrame(frame)`: validates `{buffer, bodies}`
(`bufferOk` models a truthy `frame.buffer`), processes the tracked bodies
and returns `{bodies, timestamp}` (timestamp elided). -/
def processFrame (g : Rat → Rat) (filter : Joint → Bool)
    (cfg : BodyProcessing) (bufferOk : Bool) (bodies : List Body) :
    Except String (List ProcessedBody) :=
  if bufferOk then processBodiesLoop g filter cfg bodies
  else .error "Invalid frame data"

/-- The reply `BaseWorker._setupMessageHandler` posts to the sensor: the
processed artifact, or `{error: error.message}` when `processFrame`
threw. -/
inductive WorkerReply
  | artifact (bodies : List ProcessedBody)
  | errorReply (msg : String)
deriving DecidableEq, Repr

/-- Outcome of one frame message through the base worker's handler. -/
def workerReply (r : Except String (List ProcessedBody)) : WorkerReply :=
  match r with
  | .ok d => .artifact d
  | .error e => .errorReply e

/-- The claim's bad-joint condition: the joint has a `previousPosition`
and the blended (smoothed) position or the previous position has a
coordinate exactly 0. -/
def jointBad (correction : Rat) (j : Joint) : Prop :=
  ∃ p, j.previousPosition = some p ∧
    ((blend correction j.position p).x = 0 ∨
     (blend correction j.position p).y = 0 ∨
     (blend correction j.position p).z = 0 ∨
     p.x = 0 ∨ p.y = 0 ∨ p.z = 0)

instance (c : Rat) (j : Joint) : Decidable (jointBad c j) :=
  match h : j.previousPosition with
  | none =>
    isFalse (by
      rintro ⟨p, hp, _⟩
      rw [h] at hp
      cases hp)
  | some q =>
    decidable_of_iff
      ((blend c j.position q).x = 0 ∨ (blend c j.position q).y = 0 ∨
        (blend c j.position q).z = 0 ∨ q.x = 0 ∨ q.y = 0 ∨ q.z = 0)
      (by
        constructor
        · intro hd
          exact ⟨q, h, hd⟩
        · rintro ⟨p, hp, hd⟩
          rw [h] at hp
          injection hp with hpe
          subst hpe
          exact hd)

end BodyWorker

/-! ## Concrete fixtures used by witnesses and counterexamples -/

/-- The pool of the repository's own test configuration
(`maxPoolSize: 10, initialSize: 3, expandSize: 2`). -/
def testPool : BufferPool.PoolState :=
  (BufferPool.mkBufferPool
      { maxPoolSize := some 10, initialSize := some 3,
        expandSize := some 2 }).toOption.getD default

/-- A sensor that accumulated two worker restarts while running, then was
stopped: started fresh, crashed twice, stopped. -/
def sensorAfterRestarts : BaseSensor.SensorLC :=
  BaseSensor.stop
    (BaseSensor.handleWorkerError
      (BaseSensor.handleWorkerError
        ((BaseSensor.start true (BaseSensor.mkSensor 3)).1)))

/-- Synchronizer configuration of the sync-window scenarios:
`syncWindow = 33`, `dropAfter = 66`, `bufferSize = 5`, depth and color
required. -/
def testSyncCfg : MultiSourceReader.SyncConfig :=
  { syncWindow := 33, dropAfter := 66, bufferSize := 5,
    required := [Kind.depth, Kind.color] }

/-- A body-worker smoothing/metrics configuration with `correction = 1/2`
and all optional metrics off. -/
def testBodyCfg : BodyWorker.BodyProcessing :=
  { smoothing :=
      { correction := 1/2, prediction := 1/2, jitterRadius := 1/20,
        maxDeviationRadius := 1/2 },
    metrics :=
      { trackVelocity := false, calculateBoundingBox := false,
        calculateCenterOfMass := false, calculateConfidence := false },
    movement := { threshold := 1/100, minConfidence := 1/2 } }

/-- A tracked body whose spine-mid joint (`"1"`) sits on the plane
`x = 0` in both the current and the previous frame: legitimate data that
the truthiness check rejects. -/
def centeredBody : BodyWorker.Body :=
  { trackingId := 7, tracked := true,
    joints :=
      [("1",
        { position := { x := 0, y := 1, z := 2 },
          previousPosition := some { x := 0, y := 1, z := 2 },
          trackingState := 2, confidence := 1 })],
    handStates := none }

/-! ## Theorems -/

/-- C1 (counterexample): with `max_queue_size = 3` and 10 depth frames
arriving before any worker reply, `missed_frames` is 4, not 7, and of the
3 most recently arrived frames (8, 9, 10) frames 8 and 10 are never posted
to the worker, so they cannot produce processed artifacts. -/
theorem c1_backpressure_counterexample :
    (DepthSensor.runFrames 3 10).missedFrames = 4 ∧
    (DepthSensor.runFrames 3 10).missedFrames ≠ 7 ∧
    8 ∉ (DepthSensor.runFrames 3 10).posted ∧
    10 ∉ (DepthSensor.runFrames 3 10).posted := by
  decide

/-- C1 (amended): with `max_queue_size = 3` and 10 depth frames arriving
before any worker reply, the overflow branch fires on frames 4, 6, 8, 10,
each time dropping BOTH the oldest queued frame and the incoming frame:
`missed_frames = 4`, frames 1, 2, 3, 5, 7, 9 were posted to the worker,
the evicted buffers are those of frames 1, 2, 3, 5 (in that order), and
frames 7 and 9 remain queued. -/
theorem c1_backpressure_amended :
    DepthSensor.runFrames 3 10 =
      { queue := [7, 9], missedFrames := 4, posted := [1, 2, 3, 5, 7, 9],
        released := [1, 2, 3, 5] } := by
  decide

/-- C3 (code bug, evaluated at the failing input): under the repository's
own test configuration (`maxPoolSize = 10`, `initialSize = 3`), the
constructor already creates 12 buffers (3 per kind), and after
`resize(5)` — accepted, nothing in use — the global total is still 12,
because `#shrinkPools` compares each kind's own count against the global
cap; the claimed bound `total ≤ new_max` fails. -/
theorem c3_resize_global_cap_violated :
    (BufferPool.mkBufferPool
        { maxPoolSize := some 10, initialSize := some 3,
          expandSize := some 2 }).toOption = some testPool ∧
    testPool.maxPoolSize = 10 ∧
    BufferPool.totalAll testPool = 12 ∧
    (BufferPool.resize 5 testPool).2 = none ∧
    BufferPool.totalAll (BufferPool.resize 5 testPool).1 = 12 ∧
    ¬ BufferPool.totalAll (BufferPool.resize 5 testPool).1 ≤ 5 := by
  decide

/-- C7 (counterexample): a sensor that accumulated two worker restarts and
was stopped starts again successfully, yet its restart counter is still 2,
not 0 — `start()` never resets `workerRestartAttempts`. -/
theorem c7_restart_reset_counterexample :
    sensorAfterRestarts.workerRestartAttempts = 2 ∧
    (BaseSensor.start true sensorAfterRestarts).2 = true ∧
    ((BaseSensor.start true sensorAfterRestarts).1).workerRestartAttempts = 2 ∧
    ((BaseSensor.start true sensorAfterRestarts).1).workerRestartAttempts ≠ 0 := by
  decide

/-- C7 (amended): `start()` never modifies the worker restart counter —
whatever the prior state and the reader outcome, the counter after
`start()` equals the counter before; it is 0 for a fresh sensor only
because the constructor initializes it so. -/
theorem c7_restart_counter_unchanged_by_start (readerOk : Bool)
    (s : BaseSensor.SensorLC) :
    ((BaseSensor.start readerOk s).1).workerRestartAttempts =
      s.workerRestartAttempts := by
  unfold BaseSensor.start
  split
  · rfl
  · split <;> rfl

/-- C8: releasing a buffer that is not in the outstanding set of its kind
throws `Invalid or untracked buffer` and leaves the entire pool state —
free lists, in-use sets and every statistics counter — unchanged. -/
theorem c8_release_untracked (s : BufferPool.PoolState) (k : Kind) (b : Nat)
    (h : b ∉ (s.pool k).inUse) :
    BufferPool.release k b s = (s, some "Invalid or untracked buffer") := by
  unfold BufferPool.release
  simp [h]

/-- C8 witness: releasing the untracked buffer id 999 on the test pool. -/
theorem c8_release_untracked_witness :
    999 ∉ (testPool.pool Kind.depth).inUse ∧
    BufferPool.release Kind.depth 999 testPool =
      (testPool, some "Invalid or untracked buffer") :=
  ⟨by decide, c8_release_untracked testPool Kind.depth 999 (by decide)⟩

/-- Storing a value of `[0, 1)` into a `Uint16Array` slot yields 0. -/
theorem jsToUint16_eq_zero {q : Rat} (h0 : 0 ≤ q) (h1 : q < 1) :
    DepthWorker.jsToUint16 q = 0 := by
  unfold DepthWorker.jsToUint16
  rw [if_pos h0]
  have hfloor : ⌊q⌋ = 0 := by
    rw [Int.floor_eq_zero_iff]
    exact ⟨h0, h1⟩
  rw [hfloor]
  rfl

/-- C2 (code bug, evaluated at the failing input): for any value of
`Math.pow(0.375, 0.5)` in `[0, 1)` — which holds of the IEEE routine,
whose result is ≈ 0.612 — the depth worker's processed frame for input
pixels `[100, 5000, 2000]` under `min = 500`, `max = 4500` with
normalization and gamma enabled is `[0, 0, 0]`: `_normalizeDepth` does
yield `g(0.375)`, but `_processFrameChunks` stores it into a
`Uint16Array` slot, truncating it to 0, so the claimed third output
≈ 0.612 never appears in the processed frame. -/
theorem c2_normalized_output_truncated (g : Rat → Rat)
    (h0 : 0 ≤ g (3/8)) (h1 : g (3/8) < 1) :
    DepthWorker.normalizeDepth g
        { normalize := true, gammaCorrection := true,
          confidenceThreshold := 0 } 2000 500 4500 = g (3/8) ∧
    DepthWorker.processFrameChunks g
        { normalize := true, gammaCorrection := true,
          confidenceThreshold := 0 } 500 4500 [100, 5000, 2000] =
      [0, 0, 0] := by
  have hnorm : DepthWorker.normalizeDepth g
      { normalize := true, gammaCorrection := true,
        confidenceThreshold := 0 } 2000 500 4500 = g (3/8) := by
    unfold DepthWorker.normalizeDepth
    norm_num
  refine ⟨hnorm, ?_⟩
  unfold DepthWorker.processFrameChunks
  simp only [List.map]
  have h100 : DepthWorker.processPixel g
      { normalize := true, gammaCorrection := true,
        confidenceThreshold := 0 } 500 4500 100 = 0 := by
    unfold DepthWorker.processPixel
    norm_num [DepthWorker.isValidDepth]
  have h5000 : DepthWorker.processPixel g
      { normalize := true, gammaCorrection := true,
        confidenceThreshold := 0 } 500 4500 5000 = 0 := by
    unfold DepthWorker.processPixel
    norm_num [DepthWorker.isValidDepth]
  have h2000 : DepthWorker.processPixel g
      { normalize := true, gammaCorrection := true,
        confidenceThreshold := 0 } 500 4500 2000 = 0 := by
    unfold DepthWorker.processPixel
    rw [if_pos rfl, if_pos (by decide),
      show ((2000 : Nat) : Rat) = (2000 : Rat) by norm_num, hnorm]
    exact jsToUint16_eq_zero h0 h1
  rw [h100, h5000, h2000]

/-- C2 witness: instantiating the pow routine with the rational
approximation 0.612372 of the IEEE value of `0.375^0.5`. -/
theorem c2_normalized_output_truncated_witness :
    (0 ≤ (612372 : Rat) / 1000000 ∧ (612372 : Rat) / 1000000 < 1) ∧
    DepthWorker.processFrameChunks (fun _ => (612372 : Rat) / 1000000)
        { normalize := true, gammaCorrection := true,
          confidenceThreshold := 0 } 500 4500 [100, 5000, 2000] =
      [0, 0, 0] :=
  ⟨⟨by norm_num, by norm_num⟩,
    (c2_normalized_output_truncated (fun _ => (612372 : Rat) / 1000000)
      (by norm_num) (by norm_num)).2⟩

/-- C9: with compression enabled and a size-valid RGBA frame, the color
worker reports `compressed = true`, while `_compressFrame` is the identity
on every buffer, so the payload bytes are not actually compressed. -/
theorem c9_compression_stub (w h : Nat) (p : ColorWorker.ColorProcessing)
    (buffer : List Nat)
    (henabled : p.compression.enabled = true)
    (hlen : buffer.length = w * h * 4) :
    (∃ r, ColorWorker.processFrame w h p buffer = .ok r ∧
      r.compressed = true ∧
      r.processedFrame =
        (if p.forceOpacity then ColorWorker.enforceOpacity buffer
         else buffer)) ∧
    ∀ b : List Nat, ColorWorker.compressFrame b = b := by
  refine ⟨?_, fun b => rfl⟩
  unfold ColorWorker.processFrame
  rw [if_neg (by rw [hlen]; exact fun hne => hne rfl)]
  rw [henabled]
  exact ⟨_, rfl, rfl, by rfl⟩

/-- C9 witness: a 1×1 RGBA frame with compression enabled. -/
theorem c9_compression_stub_witness :
    (([10, 20, 30, 40] : List Nat).length = 1 * 1 * 4) ∧
    ((∃ r, ColorWorker.processFrame 1 1
        { compression := { enabled := true }, forceOpacity := false,
          format := "raw" } [10, 20, 30, 40] = .ok r ∧
      r.compressed = true ∧
      r.processedFrame =
        (if (false : Bool) then
          ColorWorker.enforceOpacity [10, 20, 30, 40]
         else [10, 20, 30, 40])) ∧
    ∀ b : List Nat, ColorWorker.compressFrame b = b) :=
  ⟨by decide,
    c9_compression_stub 1 1
      { compression := { enabled := true }, forceOpacity := false,
        format := "raw" } [10, 20, 30, 40] rfl (by decide)⟩

/-- C4 (counterexample): an unidentified connection that sends the
parseable non-`identify` message `getStats` is NOT closed (no close code,
in particular not 1002); the server merely replies with an error message,
and if the same connection subsequently identifies, it DOES receive
`welcome`. -/
theorem c4_preidentify_close_counterexample :
    (WebSocketService.handleMessage WebSocketService.initConn
        (.parsed "getStats")).closeCode ≠ some 1002 ∧
    (WebSocketService.handleMessage WebSocketService.initConn
        (.parsed "getStats")).closeCode = none ∧
    (WebSocketService.handleMessage WebSocketService.initConn
        (.parsed "getStats")).sent =
      [.identifyReq, .errorMsg "Client not identified"] ∧
    WebSocketService.ServerMsg.welcome ∈
      (WebSocketService.handleMessage
        (WebSocketService.handleMessage WebSocketService.initConn
          (.parsed "getStats"))
        (.parsed "identify")).sent := by
  decide

/-- C4 (amended): a parseable non-`identify` message from an open,
unidentified connection makes the server reply
`{type: error, Client not identified}` and leaves the connection open,
unidentified, with the identification timer untouched; the close with
code 1002 happens only when that timer fires; and a subscriber that
subsequently identifies receives `welcome`. -/
theorem c4_preidentify_error_reply (s : WebSocketService.ConnState)
    (t : String)
    (hid : s.identified = false)
    (ht : t ≠ "identify")
    (hopen : s.closeCode = none) :
    (WebSocketService.handleMessage s (.parsed t)).closeCode = none ∧
    (WebSocketService.handleMessage s (.parsed t)).identified = false ∧
    (WebSocketService.handleMessage s (.parsed t)).timeoutActive =
      s.timeoutActive ∧
    (WebSocketService.handleMessage s (.parsed t)).sent =
      s.sent ++ [.errorMsg "Client not identified"] ∧
    WebSocketService.identificationTimeoutFire
        (WebSocketService.handleMessage s (.parsed t)) =
      (if s.timeoutActive then
        { WebSocketService.handleMessage s (.parsed t) with
            closeCode := some 1002 }
       else WebSocketService.handleMessage s (.parsed t)) ∧
    (WebSocketService.handleMessage
        (WebSocketService.handleMessage s (.parsed t))
        (.parsed "identify")).sent =
      s.sent ++ [.errorMsg "Client not identified", .welcome] ∧
    (WebSocketService.handleMessage
        (WebSocketService.handleMessage s (.parsed t))
        (.parsed "identify")).identified = true := by
  simp [WebSocketService.handleMessage, WebSocketService.send,
    WebSocketService.identificationTimeoutFire,
    WebSocketService.handleIdentification, hid, ht, hopen]

/-- C4 witness: the amended behaviour on a fresh connection receiving
`getStats`. -/
theorem c4_preidentify_error_reply_witness :
    (WebSocketService.initConn.identified = false ∧
      "getStats" ≠ "identify" ∧
      WebSocketService.initConn.closeCode = none) ∧
    ((WebSocketService.handleMessage WebSocketService.initConn
        (.parsed "getStats")).closeCode = none ∧
    (WebSocketService.handleMessage WebSocketService.initConn
        (.parsed "getStats")).identified = false ∧
    (WebSocketService.handleMessage WebSocketService.initConn
        (.parsed "getStats")).timeoutActive =
      WebSocketService.initConn.timeoutActive ∧
    (WebSocketService.handleMessage WebSocketService.initConn
        (.parsed "getStats")).sent =
      WebSocketService.initConn.sent ++
        [.errorMsg "Client not identified"] ∧
    WebSocketService.identificationTimeoutFire
        (WebSocketService.handleMessage WebSocketService.initConn
          (.parsed "getStats")) =
      (if WebSocketService.initConn.timeoutActive then
        { WebSocketService.handleMessage WebSocketService.initConn
            (.parsed "getStats") with closeCode := some 1002 }
       else
        WebSocketService.handleMessage WebSocketService.initConn
          (.parsed "getStats")) ∧
    (WebSocketService.handleMessage
        (WebSocketService.handleMessage WebSocketService.initConn
          (.parsed "getStats"))
        (.parsed "identify")).sent =
      WebSocketService.initConn.sent ++
        [.errorMsg "Client not identified", .welcome] ∧
    (WebSocketService.handleMessage
        (WebSocketService.handleMessage WebSocketService.initConn
          (.parsed "getStats"))
        (.parsed "identify")).identified = true) :=
  ⟨⟨rfl, by decide, rfl⟩,
    c4_preidentify_error_reply WebSocketService.initConn "getStats" rfl
      (by decide) rfl⟩

/-- Folding max over delays `t - b` computes `t` minus the folded min of
the timestamps. -/
theorem listMax_map_sub (t a : Int) (l : List Int) :
    MultiSourceReader.listMax (t - a) (l.map (fun b => t - b)) =
      t - MultiSourceReader.listMin a l := by
  induction l generalizing a with
  | nil => rfl
  | cons b bs ih =>
    show MultiSourceReader.listMax (max (t - a) (t - b)) (bs.map _) =
      t - MultiSourceReader.listMin (min a b) bs
    rw [show max (t - a) (t - b) = t - min a b by
      rcases le_total a b with h | h <;> simp [min_def, max_def, h] <;> omega]
    exact ih (min a b)

/-- Folding min over delays `t - b` computes `t` minus the folded max of
the timestamps. -/
theorem listMin_map_sub (t a : Int) (l : List Int) :
    MultiSourceReader.listMin (t - a) (l.map (fun b => t - b)) =
      t - MultiSourceReader.listMax a l := by
  induction l generalizing a with
  | nil => rfl
  | cons b bs ih =>
    show MultiSourceReader.listMin (min (t - a) (t - b)) (bs.map _) =
      t - MultiSourceReader.listMax (max a b) bs
    rw [show min (t - a) (t - b) = t - max a b by
      rcases le_total a b with h | h <;> simp [min_def, max_def, h] <;> omega]
    exact ih (max a b)

/-- The seed is bounded by the fold of max. -/
theorem le_listMax (x : Int) (l : List Int) :
    x ≤ MultiSourceReader.listMax x l := by
  induction l generalizing x with
  | nil => exact le_refl x
  | cons b bs ih =>
    exact le_trans (le_max_left x b) (ih (max x b))

/-- Every member is bounded by the fold of max. -/
theorem mem_le_listMax {y : Int} (x : Int) (l : List Int) (hy : y ∈ l) :
    y ≤ MultiSourceReader.listMax x l := by
  induction l generalizing x with
  | nil => cases hy
  | cons b bs ih =>
    rcases List.mem_cons.mp hy with h | h
    · subst h
      exact le_trans (le_max_right x y) (le_listMax (max x y) bs)
    · exact ih (max x b) h

/-- C5: the synchronizer emits a `synchronizedFrame` bundle only when
every required kind has a buffered slot and the timestamp spread
`max_ts − min_ts` over the buffered frames is at most `sync_window`, and
the emission clears the per-kind slots. -/
theorem c5_bundle_only_when_synced (cfg : MultiSourceReader.SyncConfig)
    (s : MultiSourceReader.SyncState) (t ts : Int)
    (frames : List (Kind × Int))
    (hreq : cfg.required ≠ [])
    (hmem : MultiSourceReader.SyncEvent.synchronizedFrame ts frames ∈
      (MultiSourceReader.checkSynchronization cfg t s).2) :
    (∀ k ∈ cfg.required, (s.slots.lookup k).isSome) ∧
    (∃ p rest, s.slots = p :: rest ∧
      MultiSourceReader.listMax p.2 (rest.map Prod.snd) -
        MultiSourceReader.listMin p.2 (rest.map Prod.snd) ≤
          cfg.syncWindow) ∧
    (MultiSourceReader.checkSynchronization cfg t s).1.slots = [] := by
  unfold MultiSourceReader.checkSynchronization
    MultiSourceReader.checkSyncCore at hmem ⊢
  split at hmem
  next hc =>
    have hcall : ∀ k ∈ cfg.required, (s.slots.lookup k).isSome := by
      intro k hk
      have h := List.all_eq_true.mp hc k hk
      simpa using h
    split at hmem
    next heq =>
      exfalso
      obtain ⟨k, hk⟩ := List.exists_mem_of_ne_nil cfg.required hreq
      have h := hcall k hk
      have hs : s.slots = [] := heq
      rw [hs] at h
      simp [List.lookup] at h
    next p rest heq =>
      have hs : s.slots = p :: rest := heq
      rw [if_pos hc]
      split at hmem
      next hwin =>
        have hmax : MultiSourceReader.listMax (t - p.2)
            (rest.map (fun q => t - q.2)) =
            t - MultiSourceReader.listMin p.2 (rest.map Prod.snd) := by
          rw [show (rest.map (fun q => t - q.2)) =
              ((rest.map Prod.snd).map (fun b => t - b)) by
            rw [List.map_map]; rfl]
          exact listMax_map_sub t p.2 (rest.map Prod.snd)
        have hmin : MultiSourceReader.listMin (t - p.2)
            (rest.map (fun q => t - q.2)) =
            t - MultiSourceReader.listMax p.2 (rest.map Prod.snd) := by
          rw [show (rest.map (fun q => t - q.2)) =
              ((rest.map Prod.snd).map (fun b => t - b)) by
            rw [List.map_map]; rfl]
          exact listMin_map_sub t p.2 (rest.map Prod.snd)
        rw [hmax, hmin] at hwin
        refine ⟨hcall, ⟨p, rest, hs, by omega⟩, ?_⟩
        rw [if_pos (by rw [hmax, hmin]; omega)]
        rfl
      next hwin =>
        exfalso
        split at hmem
        next => simp [MultiSourceReader.dropStaleFrames] at hmem
        next => simp at hmem
  next hc => simp at hmem


/-- C5 witness: depth at ts 10 and color at ts 20 under a 33 ms window
emit a bundle at t = 30. -/
theorem c5_bundle_only_when_synced_witness :
    (testSyncCfg.required ≠ [] ∧
      MultiSourceReader.SyncEvent.synchronizedFrame 30
          [(Kind.depth, 10), (Kind.color, 20)] ∈
        (MultiSourceReader.checkSynchronization testSyncCfg 30
          { MultiSourceReader.initSync with
              slots := [(Kind.depth, 10), (Kind.color, 20)] }).2) ∧
    ((∀ k ∈ testSyncCfg.required,
        ((({ MultiSourceReader.initSync with
              slots := [(Kind.depth, 10), (Kind.color, 20)] } :
            MultiSourceReader.SyncState).slots.lookup k).isSome)) ∧
      (∃ p rest,
        ({ MultiSourceReader.initSync with
            slots := [(Kind.depth, 10), (Kind.color, 20)] } :
          MultiSourceReader.SyncState).slots = p :: rest ∧
        MultiSourceReader.listMax p.2 (rest.map Prod.snd) -
          MultiSourceReader.listMin p.2 (rest.map Prod.snd) ≤
            testSyncCfg.syncWindow) ∧
      (MultiSourceReader.checkSynchronization testSyncCfg 30
        { MultiSourceReader.initSync with
            slots := [(Kind.depth, 10), (Kind.color, 20)] }).1.slots = []) :=
  ⟨⟨by decide, by decide⟩,
    c5_bundle_only_when_synced testSyncCfg
      { MultiSourceReader.initSync with
          slots := [(Kind.depth, 10), (Kind.color, 20)] }
      30 30 [(Kind.depth, 10), (Kind.color, 20)] (by decide) (by decide)⟩

/-- C6 (counterexample): an emission at t = 1000 with only the depth slot
buffered (at ts 0, so 1000 ms old, far beyond `drop_after = 66`) while
color is also required produces no bundle, yet the stale depth slot is NOT
removed, `dropped_frames` stays 0, and no `frame_dropped` event is
emitted — stale slots are only dropped when the slot set is complete. -/
theorem c6_stale_slot_not_dropped_counterexample :
    (MultiSourceReader.checkSynchronization testSyncCfg 1000
        { MultiSourceReader.initSync with
            slots := [(Kind.depth, 0)] }).2 = [] ∧
    ((1000 : Int) - 0 > testSyncCfg.dropAfter) ∧
    (MultiSourceReader.checkSynchronization testSyncCfg 1000
        { MultiSourceReader.initSync with
            slots := [(Kind.depth, 0)] }).1.slots = [(Kind.depth, 0)] ∧
    (MultiSourceReader.checkSynchronization testSyncCfg 1000
        { MultiSourceReader.initSync with
            slots := [(Kind.depth, 0)] }).1.droppedFrames = 0 := by
  decide

/-- C6 (amended): stale slots are removed only on emissions at which
every required kind has a buffered slot AND the bundle condition fails
(spread above `sync_window`): in that case every slot whose age exceeds
`drop_after` is removed, counted in `dropped_frames`, and reported via
`frame_dropped` carrying its kind and delay (when no slot is that old,
nothing changes); with an incomplete slot set no stale slot is ever
dropped. -/
theorem c6_stale_drop_requires_complete (cfg : MultiSourceReader.SyncConfig)
    (s : MultiSourceReader.SyncState) (t : Int)
    (p : Kind × Int) (rest : List (Kind × Int))
    (hcomp : ∀ k ∈ cfg.required, (s.slots.lookup k).isSome)
    (hslots : s.slots = p :: rest)
    (hspread : MultiSourceReader.listMax p.2 (rest.map Prod.snd) -
        MultiSourceReader.listMin p.2 (rest.map Prod.snd) >
          cfg.syncWindow) :
    (MultiSourceReader.checkSynchronization cfg t s).1.slots =
      s.slots.filter (fun q => ¬(t - q.2 > cfg.dropAfter)) ∧
    (MultiSourceReader.checkSynchronization cfg t s).1.droppedFrames =
      s.droppedFrames +
        (s.slots.filter (fun q => t - q.2 > cfg.dropAfter)).length ∧
    (MultiSourceReader.checkSynchronization cfg t s).2 =
      (s.slots.filter (fun q => t - q.2 > cfg.dropAfter)).map
        (fun q => .frameDropped q.1 q.2 (t - q.2)) := by
  have hcomp1 : MultiSourceReader.isComplete cfg
      { s with syncAttempts := s.syncAttempts + 1 } = true := by
    apply List.all_eq_true.mpr
    intro k hk
    simpa using hcomp k hk
  have hmax : MultiSourceReader.listMax (t - p.2)
      (rest.map (fun q => t - q.2)) =
      t - MultiSourceReader.listMin p.2 (rest.map Prod.snd) := by
    rw [show (rest.map (fun q => t - q.2)) =
        ((rest.map Prod.snd).map (fun b => t - b)) by
      rw [List.map_map]; rfl]
    exact listMax_map_sub t p.2 (rest.map Prod.snd)
  have hmin : MultiSourceReader.listMin (t - p.2)
      (rest.map (fun q => t - q.2)) =
      t - MultiSourceReader.listMax p.2 (rest.map Prod.snd) := by
    rw [show (rest.map (fun q => t - q.2)) =
        ((rest.map Prod.snd).map (fun b => t - b)) by
      rw [List.map_map]; rfl]
    exact listMin_map_sub t p.2 (rest.map Prod.snd)
  unfold MultiSourceReader.checkSynchronization
    MultiSourceReader.checkSyncCore
  rw [if_pos hcomp1]
  rw [show ({ s with syncAttempts := s.syncAttempts + 1 } :
      MultiSourceReader.SyncState).slots = p :: rest from hslots]
  split
  next heq => exact absurd heq (List.cons_ne_nil p rest)
  next p1 rest1 heq =>
    injection heq with hp hrest
    subst hp
    subst hrest
    rw [if_neg (by rw [hmax, hmin]; omega)]
    by_cases hdrop : MultiSourceReader.listMax (t - p.2)
        (rest.map (fun q => t - q.2)) > cfg.dropAfter
    · rw [if_pos hdrop]
      refine ⟨?_, ?_, ?_⟩ <;>
        simp [MultiSourceReader.dropStaleFrames, hslots]
    · rw [if_neg hdrop]
      have hnostale : ∀ q ∈ s.slots, ¬(t - q.2 > cfg.dropAfter) := by
        intro q hq
        rw [hslots] at hq
        rcases List.mem_cons.mp hq with h | h
        · subst h
          have := le_listMax (t - q.2) (rest.map (fun r => t - r.2))
          omega
        · have hmem2 : t - q.2 ∈ rest.map (fun r => t - r.2) :=
            List.mem_map.mpr ⟨q, h, rfl⟩
          have := mem_le_listMax (t - p.2) (rest.map (fun r => t - r.2)) hmem2
          omega
      have hfilter1 : s.slots.filter (fun q => ¬(t - q.2 > cfg.dropAfter)) =
          s.slots := by
        apply List.filter_eq_self.mpr
        intro a ha
        simpa using hnostale a ha
      have hfilter2 : s.slots.filter (fun q => t - q.2 > cfg.dropAfter) = [] := by
        apply List.filter_eq_nil_iff.mpr
        intro a ha
        simpa using hnostale a ha
      rw [← hslots, hfilter1, hfilter2]
      exact ⟨rfl, by simp, rfl⟩


/-- C6 witness: depth (ts 0) and color (ts 990) buffered at t = 1000:
complete but 990 out of the 33 ms window, so the 1000 ms-old depth slot is
dropped, counted and reported while the 10 ms-old color slot stays. -/
theorem c6_stale_drop_requires_complete_witness :
    ((∀ k ∈ testSyncCfg.required,
        ((({ MultiSourceReader.initSync with
              slots := [(Kind.depth, 0), (Kind.color, 990)] } :
            MultiSourceReader.SyncState).slots.lookup k).isSome)) ∧
      ({ MultiSourceReader.initSync with
          slots := [(Kind.depth, 0), (Kind.color, 990)] } :
        MultiSourceReader.SyncState).slots =
          (Kind.depth, 0) :: [(Kind.color, 990)] ∧
      MultiSourceReader.listMax (0 : Int) ([(Kind.color, 990)].map Prod.snd) -
        MultiSourceReader.listMin (0 : Int) ([(Kind.color, 990)].map Prod.snd) >
          testSyncCfg.syncWindow) ∧
    ((MultiSourceReader.checkSynchronization testSyncCfg 1000
        { MultiSourceReader.initSync with
            slots := [(Kind.depth, 0), (Kind.color, 990)] }).1.slots =
      ({ MultiSourceReader.initSync with
          slots := [(Kind.depth, 0), (Kind.color, 990)] } :
        MultiSourceReader.SyncState).slots.filter
          (fun q => ¬((1000 : Int) - q.2 > testSyncCfg.dropAfter)) ∧
    (MultiSourceReader.checkSynchronization testSyncCfg 1000
        { MultiSourceReader.initSync with
            slots := [(Kind.depth, 0), (Kind.color, 990)] }).1.droppedFrames =
      ({ MultiSourceReader.initSync with
          slots := [(Kind.depth, 0), (Kind.color, 990)] } :
        MultiSourceReader.SyncState).droppedFrames +
        (({ MultiSourceReader.initSync with
            slots := [(Kind.depth, 0), (Kind.color, 990)] } :
          MultiSourceReader.SyncState).slots.filter
            (fun q => (1000 : Int) - q.2 > testSyncCfg.dropAfter)).length ∧
    (MultiSourceReader.checkSynchronization testSyncCfg 1000
        { MultiSourceReader.initSync with
            slots := [(Kind.depth, 0), (Kind.color, 990)] }).2 =
      (({ MultiSourceReader.initSync with
          slots := [(Kind.depth, 0), (Kind.color, 990)] } :
        MultiSourceReader.SyncState).slots.filter
          (fun q => (1000 : Int) - q.2 > testSyncCfg.dropAfter)).map
        (fun q => .frameDropped q.1 q.2 ((1000 : Int) - q.2))) :=
  ⟨⟨by decide, rfl, by decide⟩,
    c6_stale_drop_requires_complete testSyncCfg
      { MultiSourceReader.initSync with
          slots := [(Kind.depth, 0), (Kind.color, 990)] }
      1000 (Kind.depth, 0) [(Kind.color, 990)]
      (by decide) rfl (by decide)⟩

/-- The only message `_calculateVelocity` can throw. -/
theorem calculateVelocity_error_msg (g : Rat → Rat) (c p : BodyWorker.Pos)
    (e : String) (h : BodyWorker.calculateVelocity g c p = .error e) :
    e = "Invalid position data" := by
  unfold BodyWorker.calculateVelocity at h
  split at h
  · injection h with h1
    exact h1.symm
  · cases h

/-- The only message `_calculateMovementDirection` can throw. -/
theorem calculateMovementDirection_error_msg (c p : BodyWorker.Pos)
    (e : String) (h : BodyWorker.calculateMovementDirection c p = .error e) :
    e = "Invalid position data" := by
  unfold BodyWorker.calculateMovementDirection at h
  split at h
  · injection h with h1
    exact h1.symm
  · cases h

/-- The only message `_smoothJoint` can throw. -/
theorem smoothJoint_error_msg (g : Rat → Rat) (sm : BodyWorker.Smoothing)
    (j : BodyWorker.Joint) (e : String)
    (h : BodyWorker.smoothJoint g sm j = .error e) :
    e = "Invalid position data" := by
  unfold BodyWorker.smoothJoint at h
  split at h
  · cases h
  next prev heq =>
    split at h
    next e2 hv =>
      injection h with h1
      rw [← h1]
      exact calculateVelocity_error_msg g _ prev e2 hv
    next => cases h

/-- The only message `_detectMovement` can throw. -/
theorem detectMovement_error_msg (g : Rat → Rat) (threshold : Rat)
    (spine : Option BodyWorker.Pos) (j : BodyWorker.Joint) (e : String)
    (h : BodyWorker.detectMovement g threshold spine j = .error e) :
    e = "Invalid position data" := by
  unfold BodyWorker.detectMovement at h
  split at h
  · cases h
  next prev heq =>
    split at h
    next e2 hv =>
      injection h with h1
      rw [← h1]
      exact calculateVelocity_error_msg g _ _ e2 hv
    next v hv =>
      split at h
      next e2 hd =>
        injection h with h1
        rw [← h1]
        exact calculateMovementDirection_error_msg _ _ e2 hd
      next => cases h

/-- A joint with a previous position and a zero coordinate in its blended
or previous position makes `_smoothJoint` throw. -/
theorem smoothJoint_of_bad (g : Rat → Rat) (sm : BodyWorker.Smoothing)
    (j : BodyWorker.Joint) (hbad : BodyWorker.jointBad sm.correction j) :
    BodyWorker.smoothJoint g sm j = .error "Invalid position data" := by
  obtain ⟨p, hp, hzero⟩ := hbad
  have hv : BodyWorker.calculateVelocity g
      (BodyWorker.blend sm.correction j.position p) p =
        .error "Invalid position data" := by
    unfold BodyWorker.calculateVelocity
    rw [if_pos hzero]
  unfold BodyWorker.smoothJoint
  rw [hp]
  simp only [hv]

/-- The joint loop of `_processBody` throws `Invalid position data` as
soon as some filtered joint is bad in the sense of `jointBad`. -/
theorem processJointsLoop_error_of_bad (g : Rat → Rat)
    (filter : BodyWorker.Joint → Bool) (cfg : BodyWorker.BodyProcessing)
    (spine : Option BodyWorker.Pos)
    (entries : List (String × BodyWorker.Joint))
    (hbad : ∃ nj ∈ entries, filter nj.2 = true ∧
      BodyWorker.jointBad cfg.smoothing.correction nj.2) :
    BodyWorker.processJointsLoop g filter cfg spine entries =
      .error "Invalid position data" := by
  induction entries with
  | nil => simp at hbad
  | cons hd tl ih =>
    obtain ⟨name, j⟩ := hd
    obtain ⟨nj, hmem, hf, hb⟩ := hbad
    unfold BodyWorker.processJointsLoop
    rcases List.mem_cons.mp hmem with heq | hmem2
    · subst heq
      rw [if_pos hf]
      rw [smoothJoint_of_bad g cfg.smoothing j hb]
    · by_cases hfj : filter j = true
      · rw [if_pos hfj]
        cases hs : BodyWorker.smoothJoint g cfg.smoothing j with
        | error e =>
          simp only [hs]
          rw [smoothJoint_error_msg g cfg.smoothing j e hs]
        | ok sj =>
          simp only [hs]
          cases hmv : (if cfg.metrics.trackVelocity then
              (BodyWorker.detectMovement g cfg.movement.threshold spine
                j).map some
            else
              (.ok none : Except String (Option BodyWorker.Movement))) with
          | error e =>
            simp only [hmv]
            have he : e = "Invalid position data" := by
              by_cases htv : cfg.metrics.trackVelocity
              · rw [if_pos htv] at hmv
                cases hd2 : BodyWorker.detectMovement g
                    cfg.movement.threshold spine j with
                | error e3 =>
                  rw [hd2] at hmv
                  injection hmv with h1
                  rw [← h1]
                  exact detectMovement_error_msg g _ spine j e3 hd2
                | ok m => rw [hd2] at hmv; cases hmv
              · rw [if_neg htv] at hmv
                cases hmv
            rw [he]
          | ok mv =>
            simp only [hmv]
            rw [ih ⟨nj, hmem2, hf, hb⟩]
      · rw [if_neg hfj]
        exact ih ⟨nj, hmem2, hf, hb⟩

/-- C10: for every sqrt routine, joint filter, configuration and tracked
body containing a filtered joint that has a `previousPosition` and whose
blended (smoothed) position or previous position has a coordinate exactly
0, `_processBody` throws `Invalid position data`, and for a frame carrying
that body the worker replies with an error message instead of a processed
artifact — the truthiness check treats the legitimate coordinate 0 as
missing. -/
theorem c10_zero_coordinate_error (g : Rat → Rat) (filter : BodyWorker.Joint → Bool)
    (cfg : BodyWorker.BodyProcessing) (body : BodyWorker.Body)
    (htracked : body.tracked = true)
    (hbad : ∃ nj ∈ body.joints, filter nj.2 = true ∧
      BodyWorker.jointBad cfg.smoothing.correction nj.2) :
    BodyWorker.processBody g filter cfg body =
      .error "Invalid position data" ∧
    BodyWorker.workerReply
        (BodyWorker.processFrame g filter cfg true [body]) =
      .errorReply "Invalid position data" := by
  have hpb : BodyWorker.processBody g filter cfg body =
      .error "Invalid position data" := by
    unfold BodyWorker.processBody
    rw [processJointsLoop_error_of_bad g filter cfg
      ((body.joints.lookup "1").map (fun j => j.position)) body.joints hbad]
  refine ⟨hpb, ?_⟩
  unfold BodyWorker.processFrame BodyWorker.processBodiesLoop
  rw [if_pos rfl, if_pos htracked, hpb]
  rfl


/-- C10 witness: the centered body (spine at x = 0 in both frames) under
the test configuration draws the error reply. -/
theorem c10_zero_coordinate_error_witness :
    (centeredBody.tracked = true ∧
      ∃ nj ∈ centeredBody.joints, (fun _ => true) nj.2 = true ∧
        BodyWorker.jointBad testBodyCfg.smoothing.correction nj.2) ∧
    (BodyWorker.processBody (fun _ => 0) (fun _ => true) testBodyCfg
        centeredBody = .error "Invalid position data" ∧
      BodyWorker.workerReply
          (BodyWorker.processFrame (fun _ => 0) (fun _ => true) testBodyCfg
            true [centeredBody]) =
        .errorReply "Invalid position data") :=
  have hbad : ∃ nj ∈ centeredBody.joints, (fun _ => true) nj.2 = true ∧
      BodyWorker.jointBad testBodyCfg.smoothing.correction nj.2 :=
    ⟨("1",
      { position := { x := 0, y := 1, z := 2 },
        previousPosition := some { x := 0, y := 1, z := 2 },
        trackingState := 2, confidence := 1 }),
      List.mem_singleton.mpr rfl, rfl,
      ⟨{ x := 0, y := 1, z := 2 }, rfl,
        Or.inl (by norm_num [BodyWorker.blend])⟩⟩
  ⟨⟨rfl, hbad⟩,
    c10_zero_coordinate_error (fun _ => 0) (fun _ => true) testBodyCfg
      centeredBody rfl hbad⟩

end KinectNode
